import Mathlib

/-!
Shallow embedding of the payment-verification and token-crediting pipeline
of the AspireAI repository: the package catalog (lib/constants), the shared
completion procedure `recordSuccessfulPayment` (actions/payments), the token
consumption debit `consumeTokens` (lib/tokens), the webhook route handler
(app/api/payments/webhook/route.js) and the create-order route handler
(app/api/payments/create-order).

Currency amounts (JavaScript numbers holding rupee values) are embedded as
rationals; timestamps (millisecond epochs) as integers; the database as
explicit lists of rows. Each route handler is a pure function from its
inputs and an environment (gateway responses, secrets, HMAC function) to a
response, the updated database, and a trace of observable actions.
Serializable transactions are embedded as atomic steps on the database
state; an interleaving of completion attempts is therefore a serial
sequence of attempt steps, each of which may have read its pre-transaction
snapshot at an arbitrary earlier (or even unrelated) state.
-/

instance {ε α : Type} [DecidableEq ε] [DecidableEq α] : DecidableEq (Except ε α) := fun a b =>
  match a, b with
  | .ok x, .ok y => decidable_of_iff (x = y) (by simp)
  | .error x, .error y => decidable_of_iff (x = y) (by simp)
  | .ok _, .error _ => isFalse (by simp)
  | .error _, .ok _ => isFalse (by simp)

/-- JavaScript `Math.abs` on rationals. -/
def jsAbs (q : Rat) : Rat := if q < 0 then -q else q

/-- One entry of `TOKEN_PACKAGES` in lib/constants: the package catalog row
with id, token grant, rupee amount and description. -/
structure TokenPackage where
  id : String
  tokens : Int
  amount : Rat
  description : String
deriving DecidableEq, Repr

/-- The fixed package catalog `TOKEN_PACKAGES` from lib/constants. -/
def TOKEN_PACKAGES : List TokenPackage :=
  [ ⟨ "basic", 10000, 499, "Basic Package" ⟩,
    ⟨ "standard", 25000, 999, "Standard Package" ⟩,
    ⟨ "premium", 50000, 1799, "Premium Package" ⟩ ]

/-- The lookup `getPackageById` from lib/constants: find the catalog row
whose id matches, or none. -/
def getPackageById (packageId : String) : Option TokenPackage :=
  TOKEN_PACKAGES.find? (fun pkg => pkg.id == packageId)

/-- The `Payment.status` enum of the Prisma schema. -/
inductive PaymentStatus where
  | PENDING
  | COMPLETED
  | FAILED
deriving DecidableEq, Repr

/-- A row of the `payment` table: the PaymentIntent record created by the
create-order route and mutated by `recordSuccessfulPayment`. `createdAt`
is a millisecond epoch. -/
structure Payment where
  id : Nat
  userId : String
  amount : Rat
  currency : String
  razorpayId : String
  tokensAdded : Int
  status : PaymentStatus
  razorpayPaymentId : Option String
  createdAt : Int
deriving DecidableEq, Repr

/-- A row of the `tokenTransaction` table: one ledger entry with a signed
token delta. -/
structure TokenTransaction where
  userId : String
  amount : Int
  description : String
  featureType : String
deriving DecidableEq, Repr

/-- A row of the `user` table, restricted to the fields the payment
pipeline touches: primary id, the external identity id, and the token
balance. -/
structure UserRec where
  id : String
  clerkUserId : String
  tokens : Int
deriving DecidableEq, Repr

/-- The persistent store: the three tables the payment pipeline reads and
writes. Row ids (`Payment.id`, `UserRec.id`) and `Payment.razorpayId` are
unique keys in the schema. -/
structure Db where
  payments : List Payment
  users : List UserRec
  transactions : List TokenTransaction
deriving DecidableEq, Repr

/-- The query findUnique on the payment table keyed by razorpayId. -/
def Db.findPaymentByRazorpayId (d : Db) (orderId : String) : Option Payment :=
  d.payments.find? (fun p => p.razorpayId == orderId)

/-- The query findUnique on the payment table keyed by the primary id. -/
def Db.findPaymentById (d : Db) (pid : Nat) : Option Payment :=
  d.payments.find? (fun p => p.id == pid)

/-- The update on the payment table keyed by the primary id: rewrite the
row with the matching primary id. -/
def Db.updatePaymentById (d : Db) (pid : Nat) (f : Payment → Payment) : Db :=
  { d with payments := d.payments.map (fun p => if p.id == pid then f p else p) }

/-- The token-increment update on the user table: add `n` to the balance
of the user with the matching id (a decrement is an increment by a negative
amount). -/
def Db.incrementUserTokens (d : Db) (uid : String) (n : Int) : Db :=
  { d with users := d.users.map (fun u => if u.id == uid then { u with tokens := u.tokens + n } else u) }

/-- The create on the tokenTransaction table: append one ledger entry. -/
def Db.createTransaction (d : Db) (t : TokenTransaction) : Db :=
  { d with transactions := d.transactions ++ [t] }

/-- Balance of the user with the given id (0 if absent). -/
def Db.userTokens (d : Db) (uid : String) : Int :=
  match d.users.find? (fun u => u.id == uid) with
  | some u => u.tokens
  | none => 0

/-- Status of the intent stored under the given gateway order id. -/
def Db.orderStatus (d : Db) (orderId : String) : Option PaymentStatus :=
  (d.findPaymentByRazorpayId orderId).map (fun p => p.status)

/-- The errors `recordSuccessfulPayment` can throw, one constructor per
`throw new Error(...)` site in actions/payments. -/
inductive PayErr where
  | invalidPackage
  | amountMismatch
  | paymentNotFound
  | ownershipMismatch
  | dbAmountMismatch
  | alreadyProcessedRace
deriving DecidableEq, Repr

/-- The message string of each error site in the source. -/
def PayErr.message : PayErr → String
  | .invalidPackage => "Invalid package"
  | .amountMismatch => "Payment amount does not match package"
  | .paymentNotFound => "Payment record not found"
  | .ownershipMismatch => "Payment does not belong to authenticated user"
  | .dbAmountMismatch => "Payment amount mismatch"
  | .alreadyProcessedRace => "Payment already processed"

/-- The success object returned by `recordSuccessfulPayment`:
success flag, message, and optionally the number of tokens added. -/
structure PayOk where
  message : String
  tokensAdded : Option Int
deriving DecidableEq, Repr

/-- The ledger-entry description built at the credit site:
`Purchased <package description> (Order: <orderId>)`. -/
def purchaseDescription (pkg : TokenPackage) (orderId : String) : String :=
  "Purchased " ++ pkg.description ++ " (Order: " ++ orderId ++ ")"

/-- The body of the serializable transaction in `recordSuccessfulPayment`
(lines 159-201): re-read the intent row by primary id inside the
transaction; if its status is already COMPLETED, throw (which aborts the
transaction); otherwise mark it COMPLETED with the payment id attached,
increment the user balance by the token grant, and append the `+tokens`
purchase ledger entry. Runs atomically under serializable isolation. -/
def paymentTxn (cur : Db) (payment : Payment) (paymentId userId : String)
    (tokenPackage : TokenPackage) (orderId : String) : Except PayErr Db :=
  match cur.findPaymentById payment.id with
  | none => .error .paymentNotFound
  | some currentPayment =>
    if currentPayment.status = .COMPLETED then
      .error .alreadyProcessedRace
    else
      let d1 := cur.updatePaymentById payment.id
        (fun p => { p with status := .COMPLETED, razorpayPaymentId := some paymentId })
      let d2 := d1.incrementUserTokens userId tokenPackage.tokens
      let d3 := d2.createTransaction
        ⟨ userId, tokenPackage.tokens, purchaseDescription tokenPackage orderId, "purchase" ⟩
      .ok d3

/-- The completion procedure recordSuccessfulPayment from actions/payments,
with the
pre-transaction reads taken against the snapshot `pre` (the state when the
call loaded the intent) and the serializable transaction run against the
current state `cur`. A call with no interference in between is
`recordSuccessfulPayment` below, where `pre = cur`. The returned database
is the post-state: it equals `cur` whenever the call throws or no-ops
(a thrown error inside the transaction rolls it back, and the outer catch
re-throws it to the caller). -/
def recordSuccessfulPaymentRaced (pre cur : Db)
    (orderId paymentId packageId userId : String) (amount : Rat) :
    Db × Except PayErr PayOk :=
  match getPackageById packageId with
  | none => (cur, .error .invalidPackage)
  | some tokenPackage =>
    if 1/100 < jsAbs (amount - tokenPackage.amount) then
      (cur, .error .amountMismatch)
    else
      match pre.findPaymentByRazorpayId orderId with
      | none => (cur, .error .paymentNotFound)
      | some payment =>
        if payment.userId ≠ userId then
          (cur, .error .ownershipMismatch)
        else if 1/100 < jsAbs (payment.amount - tokenPackage.amount) then
          (cur, .error .dbAmountMismatch)
        else if payment.status = .COMPLETED then
          (cur, .ok ⟨ "Payment already processed", none ⟩)
        else
          match paymentTxn cur payment paymentId userId tokenPackage orderId with
          | .error e => (cur, .error e)
          | .ok d3 => (d3, .ok ⟨ "Payment processed successfully", some tokenPackage.tokens ⟩)

/-- An un-raced call to `recordSuccessfulPayment`: the pre-transaction
reads and the transaction see the same state. -/
def recordSuccessfulPayment (d : Db)
    (orderId paymentId packageId userId : String) (amount : Rat) :
    Db × Except PayErr PayOk :=
  recordSuccessfulPaymentRaced d d orderId paymentId packageId userId amount

/-- Number of purchase ledger entries credited for the given package and
order id (featureType purchase, with the description built at the credit
site; the order id is embedded in the description). -/
def purchaseEntryCount (ts : List TokenTransaction) (pkg : TokenPackage) (orderId : String) : Nat :=
  (ts.filter (fun t => t.featureType == "purchase" && t.description == purchaseDescription pkg orderId)).length

/-- The debit consumeTokens from lib/tokens: load the user row, throw when
the
balance is below the requested amount, otherwise decrement the balance and
append the negative ledger entry in one transaction, returning the
post-decrement balance. -/
def consumeTokens (d : Db) (userId : String) (tokensToConsume : Int)
    (description featureType : String) : Db × Except String Int :=
  match d.users.find? (fun u => u.id == userId) with
  | none => (d, .error "User not found")
  | some user =>
    if user.tokens < tokensToConsume then
      (d, .error "Insufficient tokens")
    else
      let d1 := d.incrementUserTokens userId (-tokensToConsume)
      let d2 := d1.createTransaction ⟨ userId, -tokensToConsume, description, featureType ⟩
      (d2, .ok (user.tokens - tokensToConsume))

namespace Webhook

/-- The payment entity carried in the payload of a webhook event
(`event.payload.payment.entity`): the fields the handler reads. -/
structure RzpPaymentEntity where
  id : String
  order_id : String
deriving DecidableEq, Repr

/-- A parsed webhook event as delivered by the gateway for the configured
event kinds: the `event` kind string and the payload payment entity. -/
structure RzpEvent where
  event : String
  entity : RzpPaymentEntity
deriving DecidableEq, Repr

/-- The gateway order as fetched back (`razorpay.orders.fetch`): only the
`notes` metadata fields the handler reads; either may be absent. -/
structure RzpOrder where
  notesUserId : Option String
  notesPackageId : Option String
deriving DecidableEq, Repr

/-- The gateway payment as fetched back (`razorpay.payments.fetch`): the
authoritative status and the paise amount. -/
structure RzpPayment where
  status : String
  amount : Rat
deriving DecidableEq, Repr

/-- The environment of one webhook request: the HMAC-SHA256 function (as an
abstract keyed hash from secret and message to hex digest), the configured
webhook secret, the JSON event parser, the two gateway fetches (which can
fail), and whether the FAILED-status database write succeeds. -/
structure Env where
  hmacSha256 : String → String → String
  webhookSecret : Option String
  parseEvent : String → Option RzpEvent
  fetchOrder : String → Except String RzpOrder
  fetchPayment : String → Except String RzpPayment
  updateFailedOk : Bool

/-- An HTTP response: status code and body tag. -/
structure Response where
  status : Nat
  body : String
deriving DecidableEq, Repr

/-- Observable side steps of the handler, in order: parsing the body as an
event, gateway fetches, invoking the shared completion procedure, and the
FAILED-status write. -/
inductive Action where
  | parseBody
  | orderFetch (orderId : String)
  | paymentFetch (paymentId : String)
  | recordPayment (orderId paymentId packageId userId : String) (amount : Rat)
  | markFailed (orderId : String)
deriving DecidableEq, Repr

/-- The updateMany on the payment table: every row with the given
razorpayId and status PENDING moves to status FAILED. -/
def markPaymentFailed (d : Db) (orderId : String) : Db :=
  { d with payments := d.payments.map (fun p =>
      if p.razorpayId == orderId && p.status == .PENDING then { p with status := .FAILED } else p) }

/-- The webhook route handler (app/api/payments/webhook/route.js): read the
raw body and the signature header; reject 400 when the header is missing,
500 when no secret is configured; recompute the HMAC over the exact raw
body and reject 400 on mismatch before the body is ever parsed; then parse
the event (a parse failure propagates to the outer catch as a 500) and
dispatch on the event kind. For `payment.captured`, fetch the order for
its notes (a fetch failure is caught and acknowledged 200), reject 400
when the notes lack the user or package id, fetch the payment and
acknowledge 200 when its status is not captured, and otherwise delegate to
`recordSuccessfulPayment`, acknowledging 200 whether it succeeds or throws.
For `payment.failed`, mark the matching PENDING intent FAILED and
acknowledge 200 even when the write fails. Any other kind is acknowledged
200 with no side effect. Returns the response, the post-state database and
the trace of observable actions. -/
def POST (env : Env) (d : Db) (body : String) (signature : Option String) :
    Response × Db × List Action :=
  match signature with
  | none => (⟨ 400, "Missing signature" ⟩, d, [])
  | some sig =>
    match env.webhookSecret with
    | none => (⟨ 500, "Webhook secret not configured" ⟩, d, [])
    | some webhookSecret =>
      let expectedSignature := env.hmacSha256 webhookSecret body
      if expectedSignature ≠ sig then
        (⟨ 400, "Invalid signature" ⟩, d, [])
      else
        match env.parseEvent body with
        | none => (⟨ 500, "Webhook processing failed" ⟩, d, [.parseBody])
        | some event =>
          if event.event = "payment.captured" then
            let payment := event.entity
            let order := payment.order_id
            match env.fetchOrder order with
            | .error _ =>
              (⟨ 200, "Error processing payment" ⟩, d, [.parseBody, .orderFetch order])
            | .ok razorpayOrder =>
              match razorpayOrder.notesUserId, razorpayOrder.notesPackageId with
              | some notesUserId, some notesPackageId =>
                match env.fetchPayment payment.id with
                | .error _ =>
                  (⟨ 200, "Error processing payment" ⟩, d,
                    [.parseBody, .orderFetch order, .paymentFetch payment.id])
                | .ok razorpayPayment =>
                  if razorpayPayment.status ≠ "captured" then
                    (⟨ 200, "Payment not captured yet" ⟩, d,
                      [.parseBody, .orderFetch order, .paymentFetch payment.id])
                  else
                    match recordSuccessfulPayment d order payment.id notesPackageId notesUserId
                        (razorpayPayment.amount / 100) with
                    | (d1, .ok _) =>
                      (⟨ 200, "success" ⟩, d1,
                        [.parseBody, .orderFetch order, .paymentFetch payment.id,
                          .recordPayment order payment.id notesPackageId notesUserId (razorpayPayment.amount / 100)])
                    | (d1, .error _) =>
                      (⟨ 200, "Error processing payment" ⟩, d1,
                        [.parseBody, .orderFetch order, .paymentFetch payment.id,
                          .recordPayment order payment.id notesPackageId notesUserId (razorpayPayment.amount / 100)])
              | _, _ =>
                (⟨ 400, "Invalid order data" ⟩, d, [.parseBody, .orderFetch order])
          else if event.event = "payment.failed" then
            if env.updateFailedOk then
              (⟨ 200, "success" ⟩, markPaymentFailed d event.entity.order_id,
                [.parseBody, .markFailed event.entity.order_id])
            else
              (⟨ 200, "success" ⟩, d, [.parseBody, .markFailed event.entity.order_id])
          else
            (⟨ 200, "Event received" ⟩, d, [.parseBody])

end Webhook

namespace CreateOrder

/-- The gateway order returned by `razorpay.orders.create`. -/
structure RzpOrderCreated where
  id : String
  amount : Rat
  currency : String
deriving DecidableEq, Repr

/-- JavaScript `Math.round` on rationals. -/
def jsRound (q : Rat) : Int := (q + 1/2).floor

/-- Environment of one create-order request: the current time (millisecond
epoch), the gateway order-creation call (takes the integer paise amount and
can fail) and whether persisting the new PENDING row succeeds. -/
structure Env where
  now : Int
  gatewayCreate : Int → Except String RzpOrderCreated
  persistOk : Bool

/-- The create-order JSON response fields the handler can return. -/
structure Response where
  status : Nat
  orderId : Option String
  amount : Option Rat
  currency : Option String
  message : Option String
deriving DecidableEq, Repr

/-- The query findFirst with the duplicate-order filter of the
create-order route: same user, status PENDING, created within the last 30
minutes, ordered by `createdAt` descending (so the most recent match is
returned). -/
def pickLatest (acc : Option Payment) (p : Payment) : Option Payment :=
  match acc with
  | none => some p
  | some q => if q.createdAt < p.createdAt then some p else some q

def findFirstPendingRecent (d : Db) (userId : String) (cutoff : Int) : Option Payment :=
  (d.payments.filter (fun p => p.userId == userId && p.status == .PENDING && cutoff ≤ p.createdAt)).foldl
    pickLatest none

/-- A fresh primary id for a new payment row. -/
def freshPaymentId (d : Db) : Nat :=
  d.payments.foldl (fun m p => max m (p.id + 1)) 0

/-- The create-order route handler (POST /api/payments/create-order):
401 when unauthenticated, 404 when the principal has no user row, 400 for
a missing or unknown package id, 500 for a non-positive catalog amount;
then, if a PENDING intent of the same user created within the last 30
minutes exists, answer 200 with the gateway order id of that intent, its amount
converted to paise and its currency (defaulting empty to INR) without
calling the gateway or writing anything; otherwise create the gateway
order with the rounded paise amount (a gateway failure is a 500), persist
the new PENDING row (a persistence failure is logged but does not fail the
response) and answer 200 with the fresh gateway order. The boolean in the
result records whether a gateway order was created. -/
def POST (env : Env) (d : Db) (authUserId : Option String) (packageId : Option String) :
    Response × Db × Bool :=
  match authUserId with
  | none => (⟨ 401, none, none, none, some "Unauthorized" ⟩, d, false)
  | some clerkId =>
    match d.users.find? (fun u => u.clerkUserId == clerkId) with
    | none => (⟨ 404, none, none, none, some "User not found" ⟩, d, false)
    | some user =>
      match packageId with
      | none => (⟨ 400, none, none, none, some "Invalid package ID" ⟩, d, false)
      | some pid =>
        match getPackageById pid with
        | none => (⟨ 400, none, none, none, some "Invalid package selected" ⟩, d, false)
        | some tokenPackage =>
          if tokenPackage.amount ≤ 0 then
            (⟨ 500, none, none, none, some "Invalid package configuration" ⟩, d, false)
          else
            match findFirstPendingRecent d user.id (env.now - 30 * 60 * 1000) with
            | some existing =>
              (⟨ 200, some existing.razorpayId, some (existing.amount * 100),
                  some (if existing.currency = "" then "INR" else existing.currency),
                  some "Using existing pending order" ⟩, d, false)
            | none =>
              match env.gatewayCreate (jsRound (tokenPackage.amount * 100)) with
              | .error _ =>
                (⟨ 500, none, none, none, some "Failed to create payment order with Razorpay" ⟩, d, false)
              | .ok order =>
                let d1 :=
                  if env.persistOk then
                    { d with payments := d.payments ++
                      [ ⟨ freshPaymentId d, user.id, tokenPackage.amount, "INR", order.id,
                          tokenPackage.tokens, .PENDING, none, env.now ⟩ ] }
                  else d
                (⟨ 200, some order.id, some order.amount, some order.currency, none ⟩, d1, true)

end CreateOrder

/-- Whether a completion result is a success object (a success value reached
the caller) rather than a thrown error. -/
def isOkResult : Except PayErr PayOk → Bool
  | .ok _ => true
  | .error _ => false

/-- The intent row after the completion transaction: status COMPLETED with
the gateway payment id attached. -/
def completedRow (p0 : Payment) (paymentId : String) : Payment :=
  { p0 with status := .COMPLETED, razorpayPaymentId := some paymentId }

/-- The ledger entry appended by the completion transaction. -/
def creditEntry (userId : String) (pkg : TokenPackage) (orderId : String) : TokenTransaction :=
  ⟨ userId, pkg.tokens, purchaseDescription pkg orderId, "purchase" ⟩

/-- Pre-completion state of one order: its single intent row, the single
owning user row, and an arbitrary prior ledger. -/
def stateA (p0 : Payment) (u0 : UserRec) (ts0 : List TokenTransaction) : Db :=
  ⟨ [p0], [u0], ts0 ⟩

/-- Post-completion state of the same order: the completed row, the
credited balance, and the ledger extended by exactly one purchase entry. -/
def stateB (p0 : Payment) (u0 : UserRec) (ts0 : List TokenTransaction)
    (paymentId userId orderId : String) (pkg : TokenPackage) : Db :=
  ⟨ [completedRow p0 paymentId], [{ u0 with tokens := u0.tokens + pkg.tokens }],
    ts0 ++ [creditEntry userId pkg orderId] ⟩

/-- One completion attempt as a step on the current state, given the
snapshot `pre` its pre-transaction reads saw. -/
def attemptStep (orderId paymentId packageId userId : String) (amount : Rat)
    (cur pre : Db) : Db :=
  (recordSuccessfulPaymentRaced pre cur orderId paymentId packageId userId amount).1

/-- Any number of completion attempts applied serially (the serializable
transactions commit in some serial order), each with an arbitrary
pre-transaction snapshot. -/
def runRaced (orderId paymentId packageId userId : String) (amount : Rat)
    (pres : List Db) (d : Db) : Db :=
  pres.foldl (attemptStep orderId paymentId packageId userId amount) d

/-- A number of un-raced completion attempts in sequence, each reading the
state the previous one left. -/
def runSerial (orderId paymentId packageId userId : String) (amount : Rat) :
    Nat → Db → Db
  | 0, d => d
  | n + 1, d =>
    runSerial orderId paymentId packageId userId amount n
      (recordSuccessfulPayment d orderId paymentId packageId userId amount).1

/-- Concrete catalog row used to instantiate theorems at specific inputs. -/
def basicPackage : TokenPackage := ⟨ "basic", 10000, 499, "Basic Package" ⟩

/-- Concrete PENDING intent row used to instantiate theorems. -/
def pendingIntentW : Payment := ⟨ 1, "u1", 499, "INR", "ord_1", 10000, .PENDING, none, 0 ⟩

/-- Concrete user row used to instantiate theorems. -/
def userW : UserRec := ⟨ "u1", "clerk1", 100 ⟩

/-- Concrete webhook environment: a toy keyed hash, a configured secret, a
parser that yields a captured event, and failing gateway fetches. -/
def webhookEnvW : Webhook.Env :=
  ⟨ fun secret message => secret ++ "|" ++ message, some "sec",
    fun _ => some ⟨ "payment.captured", ⟨ "pay_1", "ord_1" ⟩ ⟩,
    fun _ => .error "gateway down", fun _ => .error "gateway down", true ⟩

/-- Concrete create-order environment with a failing gateway. -/
def createOrderEnvW : CreateOrder.Env :=
  ⟨ 1000000, fun _ => .error "gateway down", true ⟩

lemma txn_from_completed (p0 : Payment) (u0 : UserRec) (ts0 : List TokenTransaction)
    (paymentId userId orderId : String) (pkg : TokenPackage)
    (payment : Payment) (pid2 uid2 oid2 : String) (pkg2 : TokenPackage) :
    ∀ d3, paymentTxn (stateB p0 u0 ts0 paymentId userId orderId pkg) payment pid2 uid2 pkg2 oid2 ≠ .ok d3 := by
  intro d3
  unfold paymentTxn Db.findPaymentById stateB
  simp only [completedRow, List.find?]
  cases h : p0.id == payment.id <;> simp [h]

lemma raced_fst (pre cur : Db) (oid pid pkgid uid : String) (amt : Rat) :
    (recordSuccessfulPaymentRaced pre cur oid pid pkgid uid amt).1 = cur ∨
    ∃ payment pkg, getPackageById pkgid = some pkg ∧
      paymentTxn cur payment pid uid pkg oid =
        .ok (recordSuccessfulPaymentRaced pre cur oid pid pkgid uid amt).1 := by
  unfold recordSuccessfulPaymentRaced
  repeat' split
  any_goals left ; rfl
  exact Or.inr ⟨ _, _, by assumption, by rw [ (by assumption : paymentTxn _ _ _ _ _ _ = _) ] ⟩

lemma fst_from_completed (p0 : Payment) (u0 : UserRec) (ts0 : List TokenTransaction)
    (paymentId userId orderId : String) (pkg : TokenPackage)
    (pre : Db) (oid2 pid2 packageId2 uid2 : String) (amount2 : Rat) :
    (recordSuccessfulPaymentRaced pre (stateB p0 u0 ts0 paymentId userId orderId pkg)
      oid2 pid2 packageId2 uid2 amount2).1 = stateB p0 u0 ts0 paymentId userId orderId pkg := by
  rcases raced_fst pre (stateB p0 u0 ts0 paymentId userId orderId pkg) oid2 pid2 packageId2 uid2 amount2 with
    h | ⟨ payment, pkg2, _, htxn ⟩
  · exact h
  · exact absurd htxn (txn_from_completed p0 u0 ts0 paymentId userId orderId pkg payment pid2 uid2 oid2 pkg2 _)

lemma txn_from_A (p0 : Payment) (u0 : UserRec) (ts0 : List TokenTransaction)
    (paymentId userId orderId : String) (pkg : TokenPackage) (payment : Payment)
    (hpend : ¬ p0.status = .COMPLETED) (huid : u0.id = userId) :
    ∀ d3, paymentTxn (stateA p0 u0 ts0) payment paymentId userId pkg orderId = .ok d3 →
      d3 = stateB p0 u0 ts0 paymentId userId orderId pkg := by
  intro d3 h
  unfold paymentTxn Db.findPaymentById stateA at h
  cases hid : p0.id == payment.id
  case false => simp [List.find?, hid] at h
  case true =>
    simp only [List.find?, hid] at h
    rw [if_neg hpend] at h
    cases h
    rw [beq_iff_eq] at hid
    simp [Db.updatePaymentById, Db.incrementUserTokens, Db.createTransaction, stateB,
      completedRow, creditEntry, hid, huid]

lemma recordSuccessfulPayment_from_A (p0 : Payment) (u0 : UserRec) (ts0 : List TokenTransaction)
    (orderId paymentId packageId userId : String) (amount : Rat) (pkg : TokenPackage)
    (hpkg : getPackageById packageId = some pkg)
    (hamt : ¬ 1/100 < jsAbs (amount - pkg.amount))
    (hrz : p0.razorpayId = orderId)
    (hown : p0.userId = userId)
    (hpamt : ¬ 1/100 < jsAbs (p0.amount - pkg.amount))
    (hpend : p0.status = .PENDING)
    (huid : u0.id = userId) :
    recordSuccessfulPayment (stateA p0 u0 ts0) orderId paymentId packageId userId amount =
      (stateB p0 u0 ts0 paymentId userId orderId pkg,
        .ok ⟨ "Payment processed successfully", some pkg.tokens ⟩) := by
  unfold recordSuccessfulPayment recordSuccessfulPaymentRaced
  simp only [hpkg]
  rw [if_neg hamt]
  simp only [Db.findPaymentByRazorpayId, stateA, List.find?, hrz, beq_self_eq_true]
  rw [if_neg (by simp [hown])]
  rw [if_neg hpamt]
  rw [if_neg (by simp [hpend])]
  have htxn : paymentTxn (stateA p0 u0 ts0) p0 paymentId userId pkg orderId =
      .ok (stateB p0 u0 ts0 paymentId userId orderId pkg) := by
    unfold paymentTxn Db.findPaymentById stateA
    simp only [List.find?, beq_self_eq_true]
    rw [if_neg (by simp [hpend])]
    simp [Db.updatePaymentById, Db.incrementUserTokens, Db.createTransaction, stateB,
      completedRow, creditEntry, huid]
  unfold stateA at htxn
  rw [htxn]

lemma fst_from_A (p0 : Payment) (u0 : UserRec) (ts0 : List TokenTransaction)
    (orderId paymentId packageId userId : String) (amount : Rat) (pkg : TokenPackage) (pre : Db)
    (hpkg : getPackageById packageId = some pkg)
    (hpend : ¬ p0.status = .COMPLETED) (huid : u0.id = userId) :
    (recordSuccessfulPaymentRaced pre (stateA p0 u0 ts0) orderId paymentId packageId userId amount).1
        = stateA p0 u0 ts0 ∨
    (recordSuccessfulPaymentRaced pre (stateA p0 u0 ts0) orderId paymentId packageId userId amount).1
        = stateB p0 u0 ts0 paymentId userId orderId pkg := by
  rcases raced_fst pre (stateA p0 u0 ts0) orderId paymentId packageId userId amount with
    h | ⟨ payment, pkg2, hpkg2, htxn ⟩
  · exact Or.inl h
  · rw [hpkg] at hpkg2
    cases hpkg2
    exact Or.inr (txn_from_A p0 u0 ts0 paymentId userId orderId pkg payment hpend huid _ htxn)

lemma runRaced_inv (p0 : Payment) (u0 : UserRec) (ts0 : List TokenTransaction)
    (orderId paymentId packageId userId : String) (amount : Rat) (pkg : TokenPackage)
    (hpkg : getPackageById packageId = some pkg)
    (hpend : ¬ p0.status = .COMPLETED) (huid : u0.id = userId) :
    ∀ (pres : List Db) (d : Db),
      (d = stateA p0 u0 ts0 ∨ d = stateB p0 u0 ts0 paymentId userId orderId pkg) →
      (runRaced orderId paymentId packageId userId amount pres d = stateA p0 u0 ts0 ∨
       runRaced orderId paymentId packageId userId amount pres d
         = stateB p0 u0 ts0 paymentId userId orderId pkg) := by
  intro pres
  induction pres with
  | nil => intro d h; exact h
  | cons pre rest ih =>
    intro d h
    have hstep : attemptStep orderId paymentId packageId userId amount d pre = stateA p0 u0 ts0 ∨
        attemptStep orderId paymentId packageId userId amount d pre
          = stateB p0 u0 ts0 paymentId userId orderId pkg := by
      rcases h with rfl | rfl
      · exact fst_from_A p0 u0 ts0 orderId paymentId packageId userId amount pkg pre hpkg hpend huid
      · exact Or.inr (fst_from_completed p0 u0 ts0 paymentId userId orderId pkg pre
          orderId paymentId packageId userId amount)
    exact ih _ hstep

lemma runSerial_from_B (p0 : Payment) (u0 : UserRec) (ts0 : List TokenTransaction)
    (orderId paymentId packageId userId : String) (amount : Rat) (pkg : TokenPackage) :
    ∀ n : Nat, runSerial orderId paymentId packageId userId amount n
        (stateB p0 u0 ts0 paymentId userId orderId pkg)
      = stateB p0 u0 ts0 paymentId userId orderId pkg := by
  intro n
  induction n with
  | zero => rfl
  | succ m ih =>
    show runSerial orderId paymentId packageId userId amount m
        (recordSuccessfulPayment (stateB p0 u0 ts0 paymentId userId orderId pkg)
          orderId paymentId packageId userId amount).1 = _
    rw [recordSuccessfulPayment,
      fst_from_completed p0 u0 ts0 paymentId userId orderId pkg _ orderId paymentId packageId userId amount]
    exact ih

lemma recordSuccessfulPayment_from_B (p0 : Payment) (u0 : UserRec) (ts0 : List TokenTransaction)
    (orderId paymentId paymentId2 packageId userId : String) (amount : Rat) (pkg : TokenPackage)
    (hpkg : getPackageById packageId = some pkg)
    (hamt : ¬ 1/100 < jsAbs (amount - pkg.amount))
    (hrz : p0.razorpayId = orderId)
    (hown : p0.userId = userId)
    (hpamt : ¬ 1/100 < jsAbs (p0.amount - pkg.amount)) :
    recordSuccessfulPayment (stateB p0 u0 ts0 paymentId userId orderId pkg)
        orderId paymentId2 packageId userId amount =
      (stateB p0 u0 ts0 paymentId userId orderId pkg,
        .ok ⟨ "Payment already processed", none ⟩) := by
  unfold recordSuccessfulPayment recordSuccessfulPaymentRaced
  simp only [hpkg]
  rw [if_neg hamt]
  simp only [Db.findPaymentByRazorpayId, stateB, List.find?, completedRow, hrz, beq_self_eq_true]
  rw [if_neg (by simp [hown])]
  rw [if_neg (by simpa using hpamt)]
  simp

/-- **C1** For every gatewayOrderId, in every state reachable by any number of
completion attempts (webhook and/or client verification, whose serializable
transactions commit in any serial order, each attempt having loaded its
pre-transaction snapshot at an arbitrary state), at most one attempt performs
the credit: the ledger holds at most one +tokenGrant purchase entry for the
order, the balance is incremented by the token grant at most once, and the
intent reaches COMPLETED; and for any positive number of sequential attempts
the credit happens exactly once. -/
theorem c1_exactly_once_credit
    (p0 : Payment) (u0 : UserRec) (ts0 : List TokenTransaction)
    (orderId paymentId packageId userId : String) (amount : Rat) (pkg : TokenPackage)
    (hpkg : getPackageById packageId = some pkg)
    (hamt : ¬ 1/100 < jsAbs (amount - pkg.amount))
    (hrz : p0.razorpayId = orderId)
    (hown : p0.userId = userId)
    (hpamt : ¬ 1/100 < jsAbs (p0.amount - pkg.amount))
    (hpend : p0.status = .PENDING)
    (huid : u0.id = userId)
    (hts0 : purchaseEntryCount ts0 pkg orderId = 0) :
    (∀ pres : List Db,
      purchaseEntryCount
        (runRaced orderId paymentId packageId userId amount pres (stateA p0 u0 ts0)).transactions
        pkg orderId ≤ 1 ∧
      ((runRaced orderId paymentId packageId userId amount pres (stateA p0 u0 ts0)).userTokens userId
            = u0.tokens ∧
        (runRaced orderId paymentId packageId userId amount pres (stateA p0 u0 ts0)).orderStatus orderId
            = some .PENDING ∧
        purchaseEntryCount
          (runRaced orderId paymentId packageId userId amount pres (stateA p0 u0 ts0)).transactions
          pkg orderId = 0
       ∨
       (runRaced orderId paymentId packageId userId amount pres (stateA p0 u0 ts0)).userTokens userId
            = u0.tokens + pkg.tokens ∧
        (runRaced orderId paymentId packageId userId amount pres (stateA p0 u0 ts0)).orderStatus orderId
            = some .COMPLETED ∧
        purchaseEntryCount
          (runRaced orderId paymentId packageId userId amount pres (stateA p0 u0 ts0)).transactions
          pkg orderId = 1)) ∧
    (∀ n : Nat, 1 ≤ n →
      runSerial orderId paymentId packageId userId amount n (stateA p0 u0 ts0)
          = stateB p0 u0 ts0 paymentId userId orderId pkg ∧
      (runSerial orderId paymentId packageId userId amount n (stateA p0 u0 ts0)).userTokens userId
          = u0.tokens + pkg.tokens ∧
      (runSerial orderId paymentId packageId userId amount n (stateA p0 u0 ts0)).orderStatus orderId
          = some .COMPLETED ∧
      purchaseEntryCount
        (runSerial orderId paymentId packageId userId amount n (stateA p0 u0 ts0)).transactions
        pkg orderId = 1) := by
  have hts0' : (ts0.filter fun t =>
      t.featureType == "purchase" && t.description == purchaseDescription pkg orderId).length = 0 := hts0
  have hBtok : (stateB p0 u0 ts0 paymentId userId orderId pkg).userTokens userId
      = u0.tokens + pkg.tokens := by
    simp [Db.userTokens, stateB, List.find?, huid]
  have hBstat : (stateB p0 u0 ts0 paymentId userId orderId pkg).orderStatus orderId
      = some .COMPLETED := by
    simp [Db.orderStatus, Db.findPaymentByRazorpayId, stateB, List.find?, completedRow, hrz]
  have hBcount : purchaseEntryCount
      (stateB p0 u0 ts0 paymentId userId orderId pkg).transactions pkg orderId = 1 := by
    simp [stateB, purchaseEntryCount, List.filter_append, creditEntry, hts0']
  constructor
  · intro pres
    rcases runRaced_inv p0 u0 ts0 orderId paymentId packageId userId amount pkg hpkg
        (by simp [hpend]) huid pres _ (Or.inl rfl) with hA | hB
    · rw [hA]
      refine ⟨ ?_, Or.inl ⟨ ?_, ?_, ?_ ⟩ ⟩
      · show purchaseEntryCount ts0 pkg orderId ≤ 1
        rw [hts0]
        omega
      · simp [Db.userTokens, stateA, List.find?, huid]
      · simp [Db.orderStatus, Db.findPaymentByRazorpayId, stateA, List.find?, hrz, hpend]
      · exact hts0
    · rw [hB]
      exact ⟨ le_of_eq hBcount, Or.inr ⟨ hBtok, hBstat, hBcount ⟩ ⟩
  · intro n hn
    cases n with
    | zero => omega
    | succ m =>
      have hrun : runSerial orderId paymentId packageId userId amount (m + 1) (stateA p0 u0 ts0)
          = stateB p0 u0 ts0 paymentId userId orderId pkg := by
        show runSerial orderId paymentId packageId userId amount m
            (recordSuccessfulPayment (stateA p0 u0 ts0) orderId paymentId packageId userId amount).1
          = _
        rw [recordSuccessfulPayment_from_A p0 u0 ts0 orderId paymentId packageId userId amount pkg
          hpkg hamt hrz hown hpamt hpend huid]
        exact runSerial_from_B p0 u0 ts0 orderId paymentId packageId userId amount pkg m
      exact ⟨ hrun, by rw [hrun]; exact hBtok, by rw [hrun]; exact hBstat, by rw [hrun]; exact hBcount ⟩

/-- **C2** A completion attempt that passes the package, amount, ownership and
stored-amount checks and finds the intent already COMPLETED returns success
with the already-processed message and leaves the database (ledger, balance,
intent) unchanged; and two successive identical valid synchronous
verifications both return success while crediting only once. -/
theorem c2_completed_attempt_is_noop :
    (∀ (d : Db) (orderId paymentId packageId userId : String) (amount : Rat)
        (pkg : TokenPackage) (payment : Payment),
      getPackageById packageId = some pkg →
      ¬ 1/100 < jsAbs (amount - pkg.amount) →
      d.findPaymentByRazorpayId orderId = some payment →
      payment.userId = userId →
      ¬ 1/100 < jsAbs (payment.amount - pkg.amount) →
      payment.status = .COMPLETED →
      recordSuccessfulPayment d orderId paymentId packageId userId amount =
        (d, .ok ⟨ "Payment already processed", none ⟩)) ∧
    (∀ (p0 : Payment) (u0 : UserRec) (ts0 : List TokenTransaction)
        (orderId paymentId packageId userId : String) (amount : Rat) (pkg : TokenPackage),
      getPackageById packageId = some pkg →
      ¬ 1/100 < jsAbs (amount - pkg.amount) →
      p0.razorpayId = orderId →
      p0.userId = userId →
      ¬ 1/100 < jsAbs (p0.amount - pkg.amount) →
      p0.status = .PENDING →
      u0.id = userId →
      recordSuccessfulPayment (stateA p0 u0 ts0) orderId paymentId packageId userId amount =
        (stateB p0 u0 ts0 paymentId userId orderId pkg,
          .ok ⟨ "Payment processed successfully", some pkg.tokens ⟩) ∧
      recordSuccessfulPayment (stateB p0 u0 ts0 paymentId userId orderId pkg)
          orderId paymentId packageId userId amount =
        (stateB p0 u0 ts0 paymentId userId orderId pkg,
          .ok ⟨ "Payment already processed", none ⟩) ∧
      (stateB p0 u0 ts0 paymentId userId orderId pkg).userTokens userId
        = u0.tokens + pkg.tokens) := by
  constructor
  · intro d orderId paymentId packageId userId amount pkg payment hpkg hamt hfind hown hpamt hdone
    unfold recordSuccessfulPayment recordSuccessfulPaymentRaced
    simp only [hpkg]
    rw [if_neg hamt]
    simp only [hfind]
    rw [if_neg (by simp [hown])]
    rw [if_neg hpamt]
    rw [if_pos hdone]
  · intro p0 u0 ts0 orderId paymentId packageId userId amount pkg hpkg hamt hrz hown hpamt hpend huid
    refine ⟨ recordSuccessfulPayment_from_A p0 u0 ts0 orderId paymentId packageId userId amount pkg
        hpkg hamt hrz hown hpamt hpend huid,
      recordSuccessfulPayment_from_B p0 u0 ts0 orderId paymentId paymentId packageId userId amount pkg
        hpkg hamt hrz hown hpamt, ?_ ⟩
    simp [Db.userTokens, stateB, List.find?, huid]


lemma lostRace_aborts
    (pre cur : Db) (orderId paymentId packageId userId : String) (amount : Rat)
    (pkg : TokenPackage) (payment curPayment : Payment)
    (hpkg : getPackageById packageId = some pkg)
    (hamt : ¬ 1/100 < jsAbs (amount - pkg.amount))
    (hfind : pre.findPaymentByRazorpayId orderId = some payment)
    (hown : payment.userId = userId)
    (hpamt : ¬ 1/100 < jsAbs (payment.amount - pkg.amount))
    (hpend : ¬ payment.status = .COMPLETED)
    (hcur : cur.findPaymentById payment.id = some curPayment)
    (hdone : curPayment.status = .COMPLETED) :
    recordSuccessfulPaymentRaced pre cur orderId paymentId packageId userId amount =
      (cur, .error .alreadyProcessedRace) := by
  unfold recordSuccessfulPaymentRaced
  simp only [hpkg]
  rw [if_neg hamt]
  simp only [hfind]
  rw [if_neg (by simp [hown])]
  rw [if_neg hpamt]
  rw [if_neg hpend]
  have htxn : paymentTxn cur payment paymentId userId pkg orderId = .error .alreadyProcessedRace := by
    unfold paymentTxn
    simp only [hcur]
    rw [if_pos hdone]
  rw [htxn]

/-- **C3, counterexample** A concrete lost race: the pre-transaction snapshot
shows the intent PENDING, the in-transaction re-read shows it COMPLETED. The
call aborts without mutating state, but it does NOT return success to its
caller: the transaction body throws the already-processed error and the outer
catch re-throws it, refuting the claim that the losing attempt returns
success as a no-op. -/
theorem c3_lost_race_returns_error_counterexample :
    recordSuccessfulPaymentRaced
      ⟨ [ ⟨ 1, "u1", 499, "INR", "ord_1", 10000, .PENDING, none, 0 ⟩ ],
        [ ⟨ "u1", "clerk1", 5 ⟩ ], [] ⟩
      ⟨ [ ⟨ 1, "u1", 499, "INR", "ord_1", 10000, .COMPLETED, some "pay_0", 0 ⟩ ],
        [ ⟨ "u1", "clerk1", 10005 ⟩ ], [] ⟩
      "ord_1" "pay_1" "basic" "u1" 499 =
      (⟨ [ ⟨ 1, "u1", 499, "INR", "ord_1", 10000, .COMPLETED, some "pay_0", 0 ⟩ ],
          [ ⟨ "u1", "clerk1", 10005 ⟩ ], [] ⟩,
        .error .alreadyProcessedRace) ∧
    isOkResult (recordSuccessfulPaymentRaced
      ⟨ [ ⟨ 1, "u1", 499, "INR", "ord_1", 10000, .PENDING, none, 0 ⟩ ],
        [ ⟨ "u1", "clerk1", 5 ⟩ ], [] ⟩
      ⟨ [ ⟨ 1, "u1", 499, "INR", "ord_1", 10000, .COMPLETED, some "pay_0", 0 ⟩ ],
        [ ⟨ "u1", "clerk1", 10005 ⟩ ], [] ⟩
      "ord_1" "pay_1" "basic" "u1" 499).2 = false := by
  have h := lostRace_aborts
    ⟨ [ ⟨ 1, "u1", 499, "INR", "ord_1", 10000, .PENDING, none, 0 ⟩ ],
      [ ⟨ "u1", "clerk1", 5 ⟩ ], [] ⟩
    ⟨ [ ⟨ 1, "u1", 499, "INR", "ord_1", 10000, .COMPLETED, some "pay_0", 0 ⟩ ],
      [ ⟨ "u1", "clerk1", 10005 ⟩ ], [] ⟩
    "ord_1" "pay_1" "basic" "u1" 499
    ⟨ "basic", 10000, 499, "Basic Package" ⟩
    ⟨ 1, "u1", 499, "INR", "ord_1", 10000, .PENDING, none, 0 ⟩
    ⟨ 1, "u1", 499, "INR", "ord_1", 10000, .COMPLETED, some "pay_0", 0 ⟩
    rfl (by norm_num [jsAbs]) rfl rfl (by norm_num [jsAbs]) (by decide) rfl rfl
  exact ⟨ h, by rw [h] ; rfl ⟩

/-- **C3, amended** A completion attempt that passes the pre-transaction
checks on its snapshot but whose in-transaction re-read observes COMPLETED
aborts the transaction without mutating any state; however it propagates the
already-processed error to its caller instead of returning success (the
synchronous route surfaces it as a 500; the webhook route catches it and
acknowledges 200). -/
theorem c3_lost_race_aborts_without_mutation
    (pre cur : Db) (orderId paymentId packageId userId : String) (amount : Rat)
    (pkg : TokenPackage) (payment curPayment : Payment)
    (hpkg : getPackageById packageId = some pkg)
    (hamt : ¬ 1/100 < jsAbs (amount - pkg.amount))
    (hfind : pre.findPaymentByRazorpayId orderId = some payment)
    (hown : payment.userId = userId)
    (hpamt : ¬ 1/100 < jsAbs (payment.amount - pkg.amount))
    (hpend : ¬ payment.status = .COMPLETED)
    (hcur : cur.findPaymentById payment.id = some curPayment)
    (hdone : curPayment.status = .COMPLETED) :
    recordSuccessfulPaymentRaced pre cur orderId paymentId packageId userId amount =
      (cur, .error .alreadyProcessedRace) :=
  lostRace_aborts pre cur orderId paymentId packageId userId amount pkg payment curPayment
    hpkg hamt hfind hown hpamt hpend hcur hdone

/-- **C4** When the stored intent belongs to a different principal than the
claimed one, the completion aborts with the ownership-mismatch error once the
package and amount checks are reached, and in every case it mutates nothing
and never returns success: a principal can never complete or credit an order
created for another principal. -/
theorem c4_ownership_isolation :
    (∀ (pre cur : Db) (orderId paymentId packageId userId : String) (amount : Rat)
        (pkg : TokenPackage) (payment : Payment),
      getPackageById packageId = some pkg →
      ¬ 1/100 < jsAbs (amount - pkg.amount) →
      pre.findPaymentByRazorpayId orderId = some payment →
      payment.userId ≠ userId →
      recordSuccessfulPaymentRaced pre cur orderId paymentId packageId userId amount =
        (cur, .error .ownershipMismatch)) ∧
    (∀ (pre cur : Db) (orderId paymentId packageId userId : String) (amount : Rat)
        (payment : Payment),
      pre.findPaymentByRazorpayId orderId = some payment →
      payment.userId ≠ userId →
      (recordSuccessfulPaymentRaced pre cur orderId paymentId packageId userId amount).1 = cur ∧
      isOkResult (recordSuccessfulPaymentRaced pre cur orderId paymentId packageId userId amount).2
        = false) := by
  constructor
  · intro pre cur orderId paymentId packageId userId amount pkg payment hpkg hamt hfind hne
    unfold recordSuccessfulPaymentRaced
    simp only [hpkg]
    rw [if_neg hamt]
    simp only [hfind]
    rw [if_pos hne]
  · intro pre cur orderId paymentId packageId userId amount payment hfind hne
    unfold recordSuccessfulPaymentRaced
    cases hpkg : getPackageById packageId with
    | none => exact ⟨ rfl, rfl ⟩
    | some pkg =>
      by_cases hamt : 1/100 < jsAbs (amount - pkg.amount)
      · rw [one_div] at hamt
        simp [hamt, isOkResult]
      · rw [one_div] at hamt
        simp [hamt, hfind, hne, isOkResult]

/-- **C5** A claimed amount differing from the resolved package price by more
than the 0.01 epsilon is rejected with the amount-mismatch error before any
state mutation; in particular claiming any catalog package while having paid
the price of a different catalog package is always rejected. -/
theorem c5_amount_tamper_rejected :
    (∀ (pre cur : Db) (orderId paymentId packageId userId : String) (amount : Rat)
        (pkg : TokenPackage),
      getPackageById packageId = some pkg →
      1/100 < jsAbs (amount - pkg.amount) →
      recordSuccessfulPaymentRaced pre cur orderId paymentId packageId userId amount =
        (cur, .error .amountMismatch)) ∧
    (∀ (d : Db) (orderId paymentId userId : String) (p1 p2 : TokenPackage),
      p1 ∈ TOKEN_PACKAGES → p2 ∈ TOKEN_PACKAGES → p1.id ≠ p2.id →
      recordSuccessfulPayment d orderId paymentId p1.id userId p2.amount =
        (d, .error .amountMismatch)) := by
  constructor
  · intro pre cur orderId paymentId packageId userId amount pkg hpkg hamt
    unfold recordSuccessfulPaymentRaced
    simp only [hpkg]
    rw [if_pos hamt]
  · intro d orderId paymentId userId p1 p2 h1 h2 hne
    have hself : ∀ q : TokenPackage, getPackageById q.id = some q → 1/100 < jsAbs (p2.amount - q.amount) →
        recordSuccessfulPayment d orderId paymentId q.id userId p2.amount =
          (d, .error .amountMismatch) := by
      intro q hq hgt
      unfold recordSuccessfulPayment recordSuccessfulPaymentRaced
      simp only [hq]
      rw [if_pos hgt]
    simp only [TOKEN_PACKAGES, List.mem_cons, List.not_mem_nil, or_false] at h1 h2
    rcases h1 with rfl | rfl | rfl <;> rcases h2 with rfl | rfl | rfl <;>
      first
        | exact absurd rfl hne
        | exact hself _ rfl (by norm_num [jsAbs])

/-- **C9** A token debit of `amount` against a balance `tokens`: when the
balance is below the amount the call throws the insufficient-tokens error and
leaves balance and ledger unchanged; otherwise, in one transaction, it
decrements the balance by the amount and appends exactly one ledger entry of
delta `-amount`, so the resulting balance is `tokens - amount`. -/
theorem c9_debit_insufficient_or_atomic
    (payments : List Payment) (u : UserRec) (ts : List TokenTransaction)
    (amount : Int) (description featureType : String) :
    (u.tokens < amount →
      consumeTokens ⟨ payments, [u], ts ⟩ u.id amount description featureType =
        (⟨ payments, [u], ts ⟩, .error "Insufficient tokens")) ∧
    (amount ≤ u.tokens →
      consumeTokens ⟨ payments, [u], ts ⟩ u.id amount description featureType =
        (⟨ payments, [ { u with tokens := u.tokens - amount } ],
            ts ++ [ ⟨ u.id, -amount, description, featureType ⟩ ] ⟩,
          .ok (u.tokens - amount))) := by
  have hfind : List.find? (fun v => v.id == u.id) [u] = some u := by
    simp [List.find?]
  constructor
  · intro hlt
    unfold consumeTokens
    simp only [hfind]
    rw [if_pos hlt]
  · intro hle
    unfold consumeTokens
    simp only [hfind]
    rw [if_neg (by omega)]
    simp [Db.incrementUserTokens, Db.createTransaction, List.find?, sub_eq_add_neg]

/-- **C6** A webhook request whose supplied signature header differs from the
HMAC-SHA256 of the exact raw body under the configured webhook secret is
rejected with a 400 invalid-signature response before the body is parsed:
the database is unchanged and the action trace is empty (no parse, no fetch,
no completion, no write). Any header bit-flip makes the header differ from
the recomputed digest and any body bit-flip that changes the digest does the
same, so both are rejected this way. -/
theorem c6_webhook_signature_rejection
    (env : Webhook.Env) (d : Db) (body sig webhookSecret : String)
    (hsec : env.webhookSecret = some webhookSecret)
    (hne : env.hmacSha256 webhookSecret body ≠ sig) :
    Webhook.POST env d body (some sig) = (⟨ 400, "Invalid signature" ⟩, d, []) := by
  unfold Webhook.POST
  simp only [hsec]
  rw [if_pos hne]

/-- **C7** For a signature-valid webhook delivery of a recognized event kind,
every processing failure after signature acceptance is acknowledged with a
200 response: for payment.captured, either the response is 200 (covering
order-fetch failures, payment-fetch failures, not-yet-captured status, and a
throwing completion procedure) or it is the 400 structural rejection for an
order whose notes lack the user or package id; for payment.failed the
response is always 200, even when the FAILED-status write fails. -/
theorem c7_webhook_failures_acknowledged_200
    (env : Webhook.Env) (d : Db) (body sig webhookSecret : String) (event : Webhook.RzpEvent)
    (hsec : env.webhookSecret = some webhookSecret)
    (hsig : env.hmacSha256 webhookSecret body = sig)
    (hparse : env.parseEvent body = some event) :
    (event.event = "payment.captured" →
      (Webhook.POST env d body (some sig)).1.status = 200 ∨
      ((Webhook.POST env d body (some sig)).1 = ⟨ 400, "Invalid order data" ⟩ ∧
        ∃ o, env.fetchOrder event.entity.order_id = .ok o ∧
          (o.notesUserId = none ∨ o.notesPackageId = none))) ∧
    (event.event = "payment.failed" →
      (Webhook.POST env d body (some sig)).1.status = 200) := by
  have hpost : Webhook.POST env d body (some sig) =
      (if event.event = "payment.captured" then
        match env.fetchOrder event.entity.order_id with
        | .error _ =>
          (⟨ 200, "Error processing payment" ⟩, d,
            [.parseBody, .orderFetch event.entity.order_id])
        | .ok razorpayOrder =>
          match razorpayOrder.notesUserId, razorpayOrder.notesPackageId with
          | some notesUserId, some notesPackageId =>
            match env.fetchPayment event.entity.id with
            | .error _ =>
              (⟨ 200, "Error processing payment" ⟩, d,
                [.parseBody, .orderFetch event.entity.order_id, .paymentFetch event.entity.id])
            | .ok razorpayPayment =>
              if razorpayPayment.status ≠ "captured" then
                (⟨ 200, "Payment not captured yet" ⟩, d,
                  [.parseBody, .orderFetch event.entity.order_id, .paymentFetch event.entity.id])
              else
                match recordSuccessfulPayment d event.entity.order_id event.entity.id
                    notesPackageId notesUserId (razorpayPayment.amount / 100) with
                | (d1, .ok _) =>
                  (⟨ 200, "success" ⟩, d1,
                    [.parseBody, .orderFetch event.entity.order_id, .paymentFetch event.entity.id,
                      .recordPayment event.entity.order_id event.entity.id notesPackageId notesUserId
                        (razorpayPayment.amount / 100)])
                | (d1, .error _) =>
                  (⟨ 200, "Error processing payment" ⟩, d1,
                    [.parseBody, .orderFetch event.entity.order_id, .paymentFetch event.entity.id,
                      .recordPayment event.entity.order_id event.entity.id notesPackageId notesUserId
                        (razorpayPayment.amount / 100)])
          | _, _ =>
            (⟨ 400, "Invalid order data" ⟩, d, [.parseBody, .orderFetch event.entity.order_id])
      else if event.event = "payment.failed" then
        if env.updateFailedOk then
          (⟨ 200, "success" ⟩, Webhook.markPaymentFailed d event.entity.order_id,
            [.parseBody, .markFailed event.entity.order_id])
        else
          (⟨ 200, "success" ⟩, d, [.parseBody, .markFailed event.entity.order_id])
      else
        (⟨ 200, "Event received" ⟩, d, [.parseBody])) := by
    unfold Webhook.POST
    simp only [hsec, hparse]
    rw [if_neg (by simp [hsig])]
  constructor
  · intro hkind
    rw [hpost, if_pos hkind]
    split
    · exact Or.inl rfl
    · split
      · split
        · exact Or.inl rfl
        · split
          · exact Or.inl rfl
          · split
            · exact Or.inl rfl
            · exact Or.inl rfl
      · rename_i xscrut o heq x1 x2 hcatch
        refine Or.inr ⟨ rfl, o, heq, ?_ ⟩
        cases hnu : o.notesUserId with
        | none => exact Or.inl rfl
        | some nuid =>
          cases hnp : o.notesPackageId with
          | none => exact Or.inr rfl
          | some npkg => exact (hcatch nuid npkg hnu hnp).elim
  · intro hkind
    rw [hpost]
    rw [if_neg (by simp [hkind])]
    rw [if_pos hkind]
    cases hupd : env.updateFailedOk <;> simp [hupd]

namespace CreateOrder

lemma pickLatest_none (p : Payment) : pickLatest none p = some p := rfl

lemma pickLatest_some (q p : Payment) :
    pickLatest (some q) p = if q.createdAt < p.createdAt then some p else some q := rfl

lemma pickLatest_isSome (acc : Option Payment) (p : Payment) : (pickLatest acc p).isSome := by
  cases acc with
  | none => rfl
  | some q =>
    rw [pickLatest_some]
    split <;> rfl

lemma foldl_pickLatest_isSome (l : List Payment) : ∀ acc : Option Payment, acc.isSome = true →
    (l.foldl pickLatest acc).isSome = true := by
  induction l with
  | nil => intro acc h; simpa using h
  | cons p t ih => intro acc h; exact ih (pickLatest acc p) (pickLatest_isSome acc p)

lemma foldl_pickLatest_mem (l : List Payment) : ∀ (acc : Option Payment) (m : Payment),
    l.foldl pickLatest acc = some m → acc = some m ∨ m ∈ l := by
  induction l with
  | nil => intro acc m h; exact Or.inl h
  | cons p t ih =>
    intro acc m h
    rcases ih (pickLatest acc p) m h with h1 | h1
    · cases acc with
      | none =>
        rw [pickLatest_none] at h1
        cases h1
        exact Or.inr (List.mem_cons_self p t)
      | some q =>
        rw [pickLatest_some] at h1
        split at h1
        · cases h1
          exact Or.inr (List.mem_cons_self p t)
        · exact Or.inl h1
    · exact Or.inr (List.mem_cons_of_mem p h1)

lemma findFirstPendingRecent_spec (d : Db) (uid : String) (cutoff : Int) (p : Payment)
    (hp : p ∈ d.payments) (h1 : p.userId = uid) (h2 : p.status = .PENDING)
    (h3 : cutoff ≤ p.createdAt) :
    ∃ m, findFirstPendingRecent d uid cutoff = some m ∧ m ∈ d.payments ∧
      m.userId = uid ∧ m.status = .PENDING ∧ cutoff ≤ m.createdAt := by
  have hmemf : p ∈ d.payments.filter
      (fun q => q.userId == uid && q.status == .PENDING && cutoff ≤ q.createdAt) :=
    List.mem_filter.mpr ⟨ hp, by simp [h1, h2, h3] ⟩
  have hsome : (findFirstPendingRecent d uid cutoff).isSome = true := by
    unfold findFirstPendingRecent
    cases hF : d.payments.filter
        (fun q => q.userId == uid && q.status == .PENDING && cutoff ≤ q.createdAt) with
    | nil => rw [hF] at hmemf; cases hmemf
    | cons q t =>
      show (List.foldl pickLatest (pickLatest none q) t).isSome = true
      exact foldl_pickLatest_isSome t (pickLatest none q) (pickLatest_isSome none q)
  obtain ⟨ m, hm ⟩ := Option.isSome_iff_exists.mp hsome
  have hmmem : m ∈ d.payments.filter
      (fun q => q.userId == uid && q.status == .PENDING && cutoff ≤ q.createdAt) := by
    have hfold : (d.payments.filter
        (fun q => q.userId == uid && q.status == .PENDING && cutoff ≤ q.createdAt)).foldl
          pickLatest none = some m := hm
    rcases foldl_pickLatest_mem _ none m hfold with h | h
    · cases h
    · exact h
  obtain ⟨ hm1, hm2 ⟩ := List.mem_filter.mp hmmem
  simp only [Bool.and_eq_true, beq_iff_eq, decide_eq_true_eq] at hm2
  exact ⟨ m, hm, hm1, hm2.1.1, hm2.1.2, hm2.2 ⟩

end CreateOrder

lemma getPackageById_amount_pos (pid : String) (pkg : TokenPackage)
    (h : getPackageById pid = some pkg) : 0 < pkg.amount := by
  have hmem : pkg ∈ TOKEN_PACKAGES := List.mem_of_find?_eq_some h
  simp only [TOKEN_PACKAGES, List.mem_cons, List.not_mem_nil, or_false] at hmem
  rcases hmem with rfl | rfl | rfl <;> norm_num

/-- **C8** A createOrder request by an authenticated principal who already has
a PENDING intent created within the last 30 minutes answers with that (most
recent such) intent: its gateway order id, its amount converted to paise and
its currency are returned, no gateway order is created and nothing is written
to the database. -/
theorem c8_reuse_recent_pending_order
    (env : CreateOrder.Env) (d : Db) (clerkId pid : String) (user : UserRec)
    (pkg : TokenPackage) (p : Payment)
    (huser : d.users.find? (fun u => u.clerkUserId == clerkId) = some user)
    (hpkg : getPackageById pid = some pkg)
    (hp : p ∈ d.payments) (hpu : p.userId = user.id) (hps : p.status = .PENDING)
    (hpt : env.now - 30 * 60 * 1000 ≤ p.createdAt) :
    ∃ m, m ∈ d.payments ∧ m.userId = user.id ∧ m.status = .PENDING ∧
      env.now - 30 * 60 * 1000 ≤ m.createdAt ∧
      CreateOrder.POST env d (some clerkId) (some pid) =
        (⟨ 200, some m.razorpayId, some (m.amount * 100),
            some (if m.currency = "" then "INR" else m.currency),
            some "Using existing pending order" ⟩, d, false) := by
  obtain ⟨ m, hfind, hmem, hmu, hms, hmt ⟩ :=
    CreateOrder.findFirstPendingRecent_spec d user.id (env.now - 30 * 60 * 1000) p hp hpu hps hpt
  refine ⟨ m, hmem, hmu, hms, hmt, ?_ ⟩
  unfold CreateOrder.POST
  simp only [huser, hpkg]
  rw [if_neg (not_le.mpr (getPackageById_amount_pos pid pkg hpkg))]
  simp only [hfind]

/-- **C10** The duplicate-order check of createOrder filters on principal,
PENDING status and the 30-minute window only, never on the requested package:
whenever a recent PENDING intent exists, two requests naming any two valid
package ids receive identical responses, namely the gateway order id and the
amount of the existing intent — the requested package is disregarded. -/
theorem c10_duplicate_check_ignores_package
    (env : CreateOrder.Env) (d : Db) (clerkId pid1 pid2 : String) (user : UserRec)
    (pkg1 pkg2 : TokenPackage) (p : Payment)
    (huser : d.users.find? (fun u => u.clerkUserId == clerkId) = some user)
    (hpkg1 : getPackageById pid1 = some pkg1)
    (hpkg2 : getPackageById pid2 = some pkg2)
    (hp : p ∈ d.payments) (hpu : p.userId = user.id) (hps : p.status = .PENDING)
    (hpt : env.now - 30 * 60 * 1000 ≤ p.createdAt) :
    CreateOrder.POST env d (some clerkId) (some pid1) =
      CreateOrder.POST env d (some clerkId) (some pid2) ∧
    ∃ m, m ∈ d.payments ∧ m.userId = user.id ∧ m.status = .PENDING ∧
      env.now - 30 * 60 * 1000 ≤ m.createdAt ∧
      CreateOrder.POST env d (some clerkId) (some pid1) =
        (⟨ 200, some m.razorpayId, some (m.amount * 100),
            some (if m.currency = "" then "INR" else m.currency),
            some "Using existing pending order" ⟩, d, false) := by
  obtain ⟨ m, hfind, hmem, hmu, hms, hmt ⟩ :=
    CreateOrder.findFirstPendingRecent_spec d user.id (env.now - 30 * 60 * 1000) p hp hpu hps hpt
  have hresp : ∀ (pid : String) (pkg : TokenPackage), getPackageById pid = some pkg →
      CreateOrder.POST env d (some clerkId) (some pid) =
        (⟨ 200, some m.razorpayId, some (m.amount * 100),
            some (if m.currency = "" then "INR" else m.currency),
            some "Using existing pending order" ⟩, d, false) := by
    intro pid pkg hpkg
    unfold CreateOrder.POST
    simp only [huser, hpkg]
    rw [if_neg (not_le.mpr (getPackageById_amount_pos pid pkg hpkg))]
    simp only [hfind]
  exact ⟨ by rw [hresp pid1 pkg1 hpkg1, hresp pid2 pkg2 hpkg2],
    m, hmem, hmu, hms, hmt, hresp pid1 pkg1 hpkg1 ⟩

/-- Witness for C1: one serial completion attempt on a concrete PENDING
order credits exactly once. -/
theorem c1_exactly_once_credit_witness :
    runSerial "ord_1" "pay_1" "basic" "u1" 499 1 (stateA pendingIntentW userW [])
        = stateB pendingIntentW userW [] "pay_1" "u1" "ord_1" basicPackage ∧
    (runSerial "ord_1" "pay_1" "basic" "u1" 499 1 (stateA pendingIntentW userW [])).userTokens "u1"
        = 100 + 10000 ∧
    (runSerial "ord_1" "pay_1" "basic" "u1" 499 1 (stateA pendingIntentW userW [])).orderStatus "ord_1"
        = some .COMPLETED ∧
    purchaseEntryCount
      (runSerial "ord_1" "pay_1" "basic" "u1" 499 1 (stateA pendingIntentW userW [])).transactions
      basicPackage "ord_1" = 1 :=
  (c1_exactly_once_credit pendingIntentW userW [] "ord_1" "pay_1" "basic" "u1" 499 basicPackage
    rfl (by norm_num [jsAbs, basicPackage]) rfl rfl (by norm_num [jsAbs, basicPackage, pendingIntentW])
    rfl rfl rfl).2 1 (by norm_num)

/-- Witness for C2: a duplicate completion attempt on a concrete COMPLETED
intent returns success and changes nothing. -/
theorem c2_completed_attempt_is_noop_witness :
    recordSuccessfulPayment
      ⟨ [ ⟨ 1, "u1", 499, "INR", "ord_1", 10000, .COMPLETED, some "pay_0", 0 ⟩ ], [ userW ], [] ⟩
      "ord_1" "pay_9" "basic" "u1" 499 =
      (⟨ [ ⟨ 1, "u1", 499, "INR", "ord_1", 10000, .COMPLETED, some "pay_0", 0 ⟩ ], [ userW ], [] ⟩,
        .ok ⟨ "Payment already processed", none ⟩) :=
  c2_completed_attempt_is_noop.1
    ⟨ [ ⟨ 1, "u1", 499, "INR", "ord_1", 10000, .COMPLETED, some "pay_0", 0 ⟩ ], [ userW ], [] ⟩
    "ord_1" "pay_9" "basic" "u1" 499 basicPackage
    ⟨ 1, "u1", 499, "INR", "ord_1", 10000, .COMPLETED, some "pay_0", 0 ⟩
    rfl (by norm_num [jsAbs, basicPackage]) rfl rfl (by norm_num [jsAbs, basicPackage]) rfl

/-- Witness for the amended C3 at a concrete lost race. -/
theorem c3_lost_race_aborts_without_mutation_witness :
    recordSuccessfulPaymentRaced
      ⟨ [ ⟨ 2, "u2", 499, "INR", "ord_2", 10000, .PENDING, none, 0 ⟩ ],
        [ ⟨ "u2", "clerk2", 0 ⟩ ], [] ⟩
      ⟨ [ ⟨ 2, "u2", 499, "INR", "ord_2", 10000, .COMPLETED, some "pay_0", 0 ⟩ ],
        [ ⟨ "u2", "clerk2", 10000 ⟩ ], [] ⟩
      "ord_2" "pay_2" "basic" "u2" 499 =
      (⟨ [ ⟨ 2, "u2", 499, "INR", "ord_2", 10000, .COMPLETED, some "pay_0", 0 ⟩ ],
          [ ⟨ "u2", "clerk2", 10000 ⟩ ], [] ⟩,
        .error .alreadyProcessedRace) :=
  c3_lost_race_aborts_without_mutation _ _ "ord_2" "pay_2" "basic" "u2" 499 basicPackage
    ⟨ 2, "u2", 499, "INR", "ord_2", 10000, .PENDING, none, 0 ⟩
    ⟨ 2, "u2", 499, "INR", "ord_2", 10000, .COMPLETED, some "pay_0", 0 ⟩
    rfl (by norm_num [jsAbs, basicPackage]) rfl rfl (by norm_num [jsAbs, basicPackage]) (by decide)
    rfl rfl

/-- Witness for C4: a concrete attempt by a different principal is rejected
with the ownership-mismatch error and mutates nothing. -/
theorem c4_ownership_isolation_witness :
    recordSuccessfulPaymentRaced
      ⟨ [ pendingIntentW ], [ userW ], [] ⟩ ⟨ [ pendingIntentW ], [ userW ], [] ⟩
      "ord_1" "pay_1" "basic" "u2" 499 =
      (⟨ [ pendingIntentW ], [ userW ], [] ⟩, .error .ownershipMismatch) :=
  c4_ownership_isolation.1 _ _ "ord_1" "pay_1" "basic" "u2" 499 basicPackage pendingIntentW
    rfl (by norm_num [jsAbs, basicPackage]) rfl (by decide)

/-- Witness for C5: claiming the standard package while having paid the
basic price is rejected with the amount-mismatch error. -/
theorem c5_amount_tamper_rejected_witness :
    recordSuccessfulPayment ⟨ [ pendingIntentW ], [ userW ], [] ⟩ "ord_1" "pay_1" "standard" "u1" 499 =
      (⟨ [ pendingIntentW ], [ userW ], [] ⟩, .error .amountMismatch) :=
  c5_amount_tamper_rejected.2 ⟨ [ pendingIntentW ], [ userW ], [] ⟩ "ord_1" "pay_1" "u1"
    ⟨ "standard", 25000, 999, "Standard Package" ⟩ basicPackage
    (by simp [TOKEN_PACKAGES]) (by simp [TOKEN_PACKAGES, basicPackage]) (by decide)

/-- Witness for C6: a concrete tampered signature header is rejected with a
400, no parse and no mutation. -/
theorem c6_webhook_signature_rejection_witness :
    Webhook.POST webhookEnvW ⟨ [], [], [] ⟩ "body" (some "tampered") =
      (⟨ 400, "Invalid signature" ⟩, ⟨ [], [], [] ⟩, []) :=
  c6_webhook_signature_rejection webhookEnvW ⟨ [], [], [] ⟩ "body" "tampered" "sec" rfl (by decide)

/-- Witness for C7: a concrete signature-valid captured event whose order
fetch fails is acknowledged with a 200. -/
theorem c7_webhook_failures_acknowledged_200_witness :
    ((⟨ "payment.captured", ⟨ "pay_1", "ord_1" ⟩ ⟩ : Webhook.RzpEvent).event = "payment.captured" →
      (Webhook.POST webhookEnvW ⟨ [], [], [] ⟩ "body" (some "sec|body")).1.status = 200 ∨
      ((Webhook.POST webhookEnvW ⟨ [], [], [] ⟩ "body" (some "sec|body")).1
          = ⟨ 400, "Invalid order data" ⟩ ∧
        ∃ o, webhookEnvW.fetchOrder
            (⟨ "payment.captured", ⟨ "pay_1", "ord_1" ⟩ ⟩ : Webhook.RzpEvent).entity.order_id
            = .ok o ∧
          (o.notesUserId = none ∨ o.notesPackageId = none))) ∧
    ((⟨ "payment.captured", ⟨ "pay_1", "ord_1" ⟩ ⟩ : Webhook.RzpEvent).event = "payment.failed" →
      (Webhook.POST webhookEnvW ⟨ [], [], [] ⟩ "body" (some "sec|body")).1.status = 200) :=
  c7_webhook_failures_acknowledged_200 webhookEnvW ⟨ [], [], [] ⟩ "body" "sec|body" "sec"
    ⟨ "payment.captured", ⟨ "pay_1", "ord_1" ⟩ ⟩ rfl rfl rfl

/-- Witness for C8: a concrete request finding a recent PENDING intent of the
same user reuses it, calls no gateway and writes nothing. -/
theorem c8_reuse_recent_pending_order_witness :
    ∃ m, m ∈ [ (⟨ 7, "u1", 999, "INR", "ord_9", 25000, .PENDING, none, 999000 ⟩ : Payment) ] ∧
      m.userId = "u1" ∧ m.status = .PENDING ∧
      (1000000 : Int) - 30 * 60 * 1000 ≤ m.createdAt ∧
      CreateOrder.POST createOrderEnvW
          ⟨ [ ⟨ 7, "u1", 999, "INR", "ord_9", 25000, .PENDING, none, 999000 ⟩ ], [ userW ], [] ⟩
          (some "clerk1") (some "basic") =
        (⟨ 200, some m.razorpayId, some (m.amount * 100),
            some (if m.currency = "" then "INR" else m.currency),
            some "Using existing pending order" ⟩,
          ⟨ [ ⟨ 7, "u1", 999, "INR", "ord_9", 25000, .PENDING, none, 999000 ⟩ ], [ userW ], [] ⟩,
          false) :=
  c8_reuse_recent_pending_order createOrderEnvW
    ⟨ [ ⟨ 7, "u1", 999, "INR", "ord_9", 25000, .PENDING, none, 999000 ⟩ ], [ userW ], [] ⟩
    "clerk1" "basic" userW basicPackage
    ⟨ 7, "u1", 999, "INR", "ord_9", 25000, .PENDING, none, 999000 ⟩
    rfl rfl (List.mem_cons_self _ _) rfl rfl (by decide)

/-- Witness for C9: a concrete debit of 30 against a balance of 100 leaves
70 and appends the single negative ledger entry. -/
theorem c9_debit_insufficient_or_atomic_witness :
    consumeTokens ⟨ [], [ ⟨ "u1", "clerk1", 100 ⟩ ], [] ⟩ "u1" 30 "Generated quiz" "quiz" =
      (⟨ [], [ ⟨ "u1", "clerk1", 100 - 30 ⟩ ], [ ⟨ "u1", -30, "Generated quiz", "quiz" ⟩ ] ⟩,
        .ok (100 - 30)) :=
  (c9_debit_insufficient_or_atomic [] ⟨ "u1", "clerk1", 100 ⟩ [] 30 "Generated quiz" "quiz").2
    (by norm_num)

/-- Witness for C10: with a recent PENDING intent present, concrete requests
for the basic and the premium package receive the same response, carrying the
stored intent data. -/
theorem c10_duplicate_check_ignores_package_witness :
    (CreateOrder.POST createOrderEnvW
        ⟨ [ ⟨ 7, "u1", 999, "INR", "ord_9", 25000, .PENDING, none, 999000 ⟩ ], [ userW ], [] ⟩
        (some "clerk1") (some "basic") =
      CreateOrder.POST createOrderEnvW
        ⟨ [ ⟨ 7, "u1", 999, "INR", "ord_9", 25000, .PENDING, none, 999000 ⟩ ], [ userW ], [] ⟩
        (some "clerk1") (some "premium")) ∧
    ∃ m, m ∈ [ (⟨ 7, "u1", 999, "INR", "ord_9", 25000, .PENDING, none, 999000 ⟩ : Payment) ] ∧
      m.userId = "u1" ∧ m.status = .PENDING ∧
      (1000000 : Int) - 30 * 60 * 1000 ≤ m.createdAt ∧
      CreateOrder.POST createOrderEnvW
          ⟨ [ ⟨ 7, "u1", 999, "INR", "ord_9", 25000, .PENDING, none, 999000 ⟩ ], [ userW ], [] ⟩
          (some "clerk1") (some "basic") =
        (⟨ 200, some m.razorpayId, some (m.amount * 100),
            some (if m.currency = "" then "INR" else m.currency),
            some "Using existing pending order" ⟩,
          ⟨ [ ⟨ 7, "u1", 999, "INR", "ord_9", 25000, .PENDING, none, 999000 ⟩ ], [ userW ], [] ⟩,
          false) :=
  c10_duplicate_check_ignores_package createOrderEnvW
    ⟨ [ ⟨ 7, "u1", 999, "INR", "ord_9", 25000, .PENDING, none, 999000 ⟩ ], [ userW ], [] ⟩
    "clerk1" "basic" "premium" userW basicPackage
    ⟨ "premium", 50000, 1799, "Premium Package" ⟩
    ⟨ 7, "u1", 999, "INR", "ord_9", 25000, .PENDING, none, 999000 ⟩
    rfl rfl rfl (List.mem_cons_self _ _) rfl rfl (by decide)
